import Mathlib

/-!
A shallow embedding of the request-execution pipeline of the
`rust-esplora-client` async client (`src/async.rs`): the bounded
retry-with-backoff executor `get_with_retry`, the four response decoders
(binary, JSON, hex, text) with their optional 404-absorbing variants, and
the endpoint methods `get_height`, `get_blocks`, `get_tx`, `get_tx_no_opt`.

External collaborators (the HTTP transport, the consensus / JSON / hex
codecs) are modelled as explicit function parameters; the transport is a
sequence of attempt outcomes, indexed by the attempt number.  The executor
is instrumented with a trace of events (requests dispatched with their
headers, sleeps with the requested delay) so that the retry, backoff and
header-application behaviour can be stated and proved.
-/

namespace Esplora

/-- HTTP method of `async_minreq::Method` (only the two used by the client). -/
inductive Method where
  | get
  | post
deriving Repr, DecidableEq

/-- An outbound `async_minreq::Request`: method, url, accumulated headers
and optional body. -/
structure Request where
  method : Method
  url : String
  headers : List (String × String)
  body : Option String
deriving Repr, DecidableEq

/-- `Request::new(method, url)`. -/
def Request.new (method : Method) (url : String) : Request :=
  { method := method, url := url, headers := [], body := none }

/-- `Request::with_header(key, value)`: adds one header to the request. -/
def Request.with_header (r : Request) (key value : String) : Request :=
  { r with headers := r.headers ++ [(key, value)] }

/-- An `async_minreq::Response`: numeric status code (an `i32` in the
source, hence `Int`), the byte payload (`as_bytes`), and the result of the
fallible text accessor `as_str()` (`none` when the payload is not valid
text). -/
structure Response where
  status_code : Int
  body : List Nat
  as_str : Option String
deriving Repr, DecidableEq

/-- The crate's `Error` enum, restricted to the variants constructed by
`src/async.rs` (the enum itself lives outside the provided sources):
`AsyncMinreq`, `HttpResponse { status, message }`, `InvalidResponse`,
`Json`, `Parsing`, `HexToBytes`, `HexToArray`, `BitcoinEncoding` (consensus
decode), `TransactionNotFound`.  The payloads of wrapped foreign error
types are modelled as strings.  `emptyResult` is modelled from the spec:
the spec's error taxonomy lists a distinct `EmptyResultError` ("backend
violated an endpoint's non-empty guarantee") next to
`InvalidResponseError`; the code under `src/` never constructs such a
variant, and the variant is included here only so that statements about it
can be expressed. -/
inductive Error where
  | asyncMinreq (msg : String)
  | httpResponse (status : Nat) (message : String)
  | invalidResponse
  | json (msg : String)
  | parsing
  | hexToBytes (msg : String)
  | hexToArray (msg : String)
  | consensusDecode (msg : String)
  | transactionNotFound (txid : String)
  | emptyResult
deriving Repr, DecidableEq

/-- The client configuration of `AsyncClient`: base url, retry bound, and
the default headers applied to every request.  The `HashMap` of the source
is modelled as its list of entries (keys unique, order irrelevant). -/
structure AsyncClient where
  url : String
  max_retries : Nat
  headers : List (String × String)
deriving Repr, DecidableEq

/-- Modelled from the spec: the fixed base backoff delay
(`BASE_BACKOFF_MILLIS`), a crate-level constant that is not part of the
provided sources.  The spec fixes only that it is a constant base delay;
no theorem below depends on its particular value (in milliseconds). -/
def BASE_BACKOFF_MILLIS : Nat := 256

/-- Modelled from the spec: `RETRYABLE_ERROR_CODES`, a crate-level
constant not part of the provided sources; the spec describes it as the
configured set of retryable status codes — "server overload, rate
limiting, gateway timeouts" — i.e. 503, 429 and 504. -/
def RETRYABLE_ERROR_CODES : List Nat := [429, 503, 504]

/-- Rust's `status as u16` cast: truncation of an `i32` to 16 bits. -/
def toU16 (status : Int) : Nat := (status % 65536).toNat

/-- `is_status_retryable(status: i32)`: membership of `status as u16` in
`RETRYABLE_ERROR_CODES`. -/
def is_status_retryable (status : Int) : Bool :=
  RETRYABLE_ERROR_CODES.contains (toU16 status)

/-- One observable event of the instrumented executor: a request being
dispatched (with the headers it carries), or a sleep of the given delay
requested from the `Sleeper` abstraction. -/
inductive Event where
  | requestSent (headers : List (String × String))
  | slept (delay : Nat)
deriving Repr, DecidableEq

/-- The request built at the top of each iteration of `get_with_retry`:
`Request::new(Method::Get, url)` followed by `with_header` for every
configured header. -/
def buildRequest (url : String) (headers : List (String × String)) : Request :=
  headers.foldl (fun r kv => r.with_header kv.1 kv.2) (Request.new Method.get url)

/-- The loop of `AsyncClient::get_with_retry`, instrumented with an event
trace.  `transport n` is the outcome of `request.send()` on the `n`-th
dispatched request (attempt number `n`); a transport error is propagated
by the `?` operator as `Error::AsyncMinreq`.  The source iterates with a
mutable `attempts` counter and the test `attempts < self.max_retries`;
here `gas` carries the remaining retries (`self.max_retries - attempts`)
so that the recursion is structural, and `attempts` still counts the
attempts made, exactly as in the source (`get_with_retry` below starts
the loop at `attempts = 0`, `gas = max_retries`, under which
`attempts < max_retries ↔ gas ≠ 0`). -/
def getWithRetryLoop (c : AsyncClient) (transport : Nat → Except String Response)
    (url : String) (delay attempts gas : Nat) : Except Error Response × List Event :=
  match transport attempts with
  | Except.error e =>
      (Except.error (Error.asyncMinreq e), [Event.requestSent (buildRequest url c.headers).headers])
  | Except.ok resp =>
      match gas with
      | 0 => (Except.ok resp, [Event.requestSent (buildRequest url c.headers).headers])
      | gas' + 1 =>
          if is_status_retryable resp.status_code then
            let rest := getWithRetryLoop c transport url (delay * 2) (attempts + 1) gas'
            (rest.1, Event.requestSent (buildRequest url c.headers).headers ::
                       Event.slept delay :: rest.2)
          else (Except.ok resp, [Event.requestSent (buildRequest url c.headers).headers])

/-- `AsyncClient::get_with_retry(url)`: run the loop with
`delay = BASE_BACKOFF_MILLIS`, `attempts = 0` and all `max_retries`
retries remaining. -/
def get_with_retry (c : AsyncClient) (transport : Nat → Except String Response)
    (url : String) : Except Error Response × List Event :=
  getWithRetryLoop c transport url BASE_BACKOFF_MILLIS 0 c.max_retries

/-- Number of requests dispatched in a trace. -/
def requestCount : List Event → Nat
  | [] => 0
  | Event.requestSent _ :: tr => requestCount tr + 1
  | Event.slept _ :: tr => requestCount tr

/-- The sleeps of a trace, in order, with their requested delays. -/
def sleepDelays : List Event → List Nat
  | [] => []
  | Event.slept d :: tr => d :: sleepDelays tr
  | Event.requestSent _ :: tr => sleepDelays tr

theorem foldl_with_header (hs : List (String × String)) :
    ∀ r : Request, (hs.foldl (fun r kv => r.with_header kv.1 kv.2) r).headers =
      r.headers ++ hs := by
  induction hs with
  | nil => intro r; simp
  | cons kv tl ih =>
      intro r
      rw [List.foldl_cons, ih]
      simp [Request.with_header, List.append_assoc]

theorem buildRequest_headers (url : String) (hs : List (String × String)) :
    (buildRequest url hs).headers = hs := by
  simp [buildRequest, foldl_with_header, Request.new]

/-- Every trace of the loop begins with a dispatched request carrying the
client's headers. -/
theorem loop_trace_head (c : AsyncClient) (transport : Nat → Except String Response)
    (url : String) (delay attempts gas : Nat) :
    (getWithRetryLoop c transport url delay attempts gas).2.head? =
      some (Event.requestSent c.headers) := by
  rw [getWithRetryLoop]
  rcases htr : transport attempts with e | resp
  · simp [buildRequest_headers]
  · rcases gas with _ | gas' <;>
      rcases hr : is_status_retryable resp.status_code <;>
      simp [buildRequest_headers, hr]

/-- When every attempt yields a response with a retryable status, the loop
consumes all its remaining retries: starting with `gas` retries left it
returns the response of attempt `attempts + gas`, having dispatched
`gas + 1` requests and slept `gas` times. -/
theorem loop_all_retryable (c : AsyncClient) (transport : Nat → Except String Response)
    (url : String) (resp : Nat → Response)
    (htr : ∀ n, transport n = Except.ok (resp n))
    (hretry : ∀ n, is_status_retryable (resp n).status_code = true) :
    ∀ gas delay attempts,
      (getWithRetryLoop c transport url delay attempts gas).1 =
          Except.ok (resp (attempts + gas)) ∧
      requestCount (getWithRetryLoop c transport url delay attempts gas).2 = gas + 1 ∧
      (sleepDelays (getWithRetryLoop c transport url delay attempts gas).2).length = gas := by
  intro gas
  induction gas with
  | zero =>
      intro delay attempts
      rw [getWithRetryLoop, htr attempts]
      simp [requestCount, sleepDelays]
  | succ gas' ih =>
      intro delay attempts
      obtain ⟨h1, h2, h3⟩ := ih (delay * 2) (attempts + 1)
      have hidx : attempts + 1 + gas' = attempts + (gas' + 1) := by omega
      rw [getWithRetryLoop, htr attempts]
      rw [hidx] at h1
      simp [hretry attempts, requestCount, sleepDelays, h1, h2, h3]

/-- C1: with the configured `max_retries`, for every sequence of transport
responses all of whose statuses are retryable, `get_with_retry` terminates:
it returns the response of attempt number `max_retries` (which still
carries a retryable status), having dispatched exactly `max_retries + 1`
requests and slept exactly `max_retries` times — it does not attempt
again. -/
theorem get_with_retry_terminates_after_max_retries
    (c : AsyncClient) (transport : Nat → Except String Response) (url : String)
    (resp : Nat → Response)
    (htr : ∀ n, transport n = Except.ok (resp n))
    (hretry : ∀ n, is_status_retryable (resp n).status_code = true) :
    (get_with_retry c transport url).1 = Except.ok (resp c.max_retries) ∧
    is_status_retryable (resp c.max_retries).status_code = true ∧
    requestCount (get_with_retry c transport url).2 = c.max_retries + 1 ∧
    (sleepDelays (get_with_retry c transport url).2).length = c.max_retries := by
  obtain ⟨h1, h2, h3⟩ :=
    loop_all_retryable c transport url resp htr hretry c.max_retries BASE_BACKOFF_MILLIS 0
  refine ⟨?_, hretry _, ?_, ?_⟩ <;> simp [get_with_retry, h1, h2, h3]

def exC1client : AsyncClient := { url := "http://e", max_retries := 2, headers := [("k", "v")] }

def exC1resp : Nat → Response :=
  fun _ => { status_code := 503, body := [], as_str := some "overloaded" }

def exC1transport : Nat → Except String Response := fun n => Except.ok (exC1resp n)

theorem get_with_retry_terminates_after_max_retries_witness :
    (get_with_retry exC1client exC1transport "http://e/x").1 = Except.ok (exC1resp 2) ∧
    is_status_retryable (exC1resp 2).status_code = true ∧
    requestCount (get_with_retry exC1client exC1transport "http://e/x").2 = 2 + 1 ∧
    (sleepDelays (get_with_retry exC1client exC1transport "http://e/x").2).length = 2 :=
  get_with_retry_terminates_after_max_retries exC1client exC1transport "http://e/x" exC1resp
    (fun _ => rfl) (fun _ => rfl)

/-- The sleeps of one run of the loop, started at delay `delay`, are
`delay * 2 ^ 0, delay * 2 ^ 1, …`: each retryable attempt doubles the
delay. -/
theorem loop_sleepDelays (c : AsyncClient) (transport : Nat → Except String Response)
    (url : String) :
    ∀ gas delay attempts, ∃ k,
      sleepDelays (getWithRetryLoop c transport url delay attempts gas).2 =
        (List.range k).map (fun i => delay * 2 ^ i) := by
  intro gas
  induction gas with
  | zero =>
      intro delay attempts
      refine ⟨0, ?_⟩
      rw [getWithRetryLoop]
      rcases htr : transport attempts with e | resp <;> simp [sleepDelays]
  | succ gas' ih =>
      intro delay attempts
      rcases htr : transport attempts with e | resp
      · exact ⟨0, by rw [getWithRetryLoop, htr]; simp [sleepDelays]⟩
      · rcases hr : is_status_retryable resp.status_code
        · exact ⟨0, by rw [getWithRetryLoop, htr]; simp [hr, sleepDelays]⟩
        · obtain ⟨k, hk⟩ := ih (delay * 2) (attempts + 1)
          refine ⟨k + 1, ?_⟩
          rw [getWithRetryLoop, htr]
          simp only [hr, if_true, sleepDelays]
          rw [hk]
          have hcomp : (fun i => delay * 2 ^ i) ∘ Nat.succ = fun i => delay * 2 * 2 ^ i := by
            funext i
            simp [Function.comp, pow_succ]
            ring
          rw [List.range_succ_eq_map, List.map_cons, List.map_map, hcomp]
          simp

/-- C2: for every attempt index `n`, the delay requested from the sleeper
before the `(n+1)`-th attempt (the `n`-th sleep of the trace, 0-based) is
exactly `BASE_BACKOFF_MILLIS * 2 ^ n` — exact doubling, no jitter. -/
theorem backoff_delay_doubles
    (c : AsyncClient) (transport : Nat → Except String Response) (url : String)
    (n d : Nat)
    (h : (sleepDelays (get_with_retry c transport url).2)[n]? = some d) :
    d = BASE_BACKOFF_MILLIS * 2 ^ n := by
  obtain ⟨k, hk⟩ := loop_sleepDelays c transport url c.max_retries BASE_BACKOFF_MILLIS 0
  unfold get_with_retry at h
  rw [hk] at h
  rcases Nat.lt_or_ge n k with hlt | hge
  · rw [List.getElem?_map, List.getElem?_range hlt] at h
    simp at h
    omega
  · have hnone : ((List.range k).map (fun i => BASE_BACKOFF_MILLIS * 2 ^ i))[n]? = none := by
      apply List.getElem?_eq_none
      simpa using hge
    rw [hnone] at h
    exact absurd h (by simp)

def exC2client : AsyncClient := { url := "", max_retries := 1, headers := [] }

def exC2transport : Nat → Except String Response :=
  fun _ => Except.ok { status_code := 503, body := [], as_str := some "unavailable" }

theorem backoff_delay_doubles_witness :
    (sleepDelays (get_with_retry exC2client exC2transport "u").2)[0]? = some 256 ∧
    (256 : Nat) = BASE_BACKOFF_MILLIS * 2 ^ 0 :=
  ⟨by decide, backoff_delay_doubles exC2client exC2transport "u" 0 256 (by decide)⟩

/-- C4: a transport-level failure on any attempt (the value of
`request.send()` being an error) is surfaced immediately by the `?`
operator as a terminal `Error::AsyncMinreq`: the trace ends with that
attempt's request, with no sleep and no further request — transport errors
are never retried.  The second conjunct instantiates this for the whole
executor when the failure happens on the first attempt: zero retries are
consumed. -/
theorem transport_error_is_terminal
    (c : AsyncClient) (transport : Nat → Except String Response) (url : String) :
    (∀ delay attempts gas e, transport attempts = Except.error e →
       getWithRetryLoop c transport url delay attempts gas =
         (Except.error (Error.asyncMinreq e), [Event.requestSent c.headers])) ∧
    (∀ e, transport 0 = Except.error e →
       get_with_retry c transport url =
         (Except.error (Error.asyncMinreq e), [Event.requestSent c.headers])) := by
  constructor
  · intro delay attempts gas e h
    rw [getWithRetryLoop, h]
    simp [buildRequest_headers]
  · intro e h
    unfold get_with_retry
    rw [getWithRetryLoop, h]
    simp [buildRequest_headers]

def exC4client : AsyncClient := { url := "u", max_retries := 3, headers := [("a", "b")] }

def exC4transport : Nat → Except String Response := fun _ => Except.error "connection refused"

theorem transport_error_is_terminal_witness :
    get_with_retry exC4client exC4transport "u" =
      (Except.error (Error.asyncMinreq "connection refused"),
       [Event.requestSent exC4client.headers]) :=
  (transport_error_is_terminal exC4client exC4transport "u").2 "connection refused" rfl

/-- C3: in the retry loop, a response whose status is retryable while
`attempts < max_retries` (i.e. with `gas = max_retries - attempts` retries
left) triggers exactly one sleep before the next request is dispatched:
the trace continues `request, sleep delay, request, …`.  A response whose
status is not retryable is returned as-is immediately — one request, no
sleep — regardless of the attempt count. -/
theorem retryable_sleeps_once_nonretryable_returns
    (c : AsyncClient) (transport : Nat → Except String Response) (url : String)
    (delay attempts : Nat) :
    (∀ r gas, transport attempts = Except.ok r →
       is_status_retryable r.status_code = true →
       attempts < c.max_retries →
       gas = c.max_retries - attempts →
       (getWithRetryLoop c transport url delay attempts gas).2 =
         Event.requestSent c.headers :: Event.slept delay ::
           (getWithRetryLoop c transport url (delay * 2) (attempts + 1) (gas - 1)).2 ∧
       (getWithRetryLoop c transport url (delay * 2) (attempts + 1) (gas - 1)).2.head? =
         some (Event.requestSent c.headers)) ∧
    (∀ r gas, transport attempts = Except.ok r →
       is_status_retryable r.status_code = false →
       getWithRetryLoop c transport url delay attempts gas =
         (Except.ok r, [Event.requestSent c.headers])) := by
  constructor
  · intro r gas htr hr hlt hgas
    obtain ⟨gas', rfl⟩ : ∃ g, gas = g + 1 := ⟨gas - 1, by omega⟩
    refine ⟨?_, loop_trace_head ..⟩
    rw [getWithRetryLoop, htr]
    simp [hr, buildRequest_headers]
  · intro r gas htr hr
    rw [getWithRetryLoop, htr]
    rcases gas with _ | gas' <;> simp [hr, buildRequest_headers]

def exC3client : AsyncClient := { url := "u", max_retries := 1, headers := [] }

def exC3transport : Nat → Except String Response :=
  fun _ => Except.ok { status_code := 429, body := [], as_str := some "rate limited" }

def exC3resp2 : Response := { status_code := 400, body := [], as_str := some "bad request" }

def exC3transport2 : Nat → Except String Response := fun _ => Except.ok exC3resp2

theorem retryable_sleeps_once_nonretryable_returns_witness :
    ((getWithRetryLoop exC3client exC3transport "u" 7 0 1).2 =
       Event.requestSent exC3client.headers :: Event.slept 7 ::
         (getWithRetryLoop exC3client exC3transport "u" (7 * 2) (0 + 1) (1 - 1)).2 ∧
     (getWithRetryLoop exC3client exC3transport "u" (7 * 2) (0 + 1) (1 - 1)).2.head? =
       some (Event.requestSent exC3client.headers)) ∧
    getWithRetryLoop exC3client exC3transport2 "u" 7 5 0 =
      (Except.ok exC3resp2, [Event.requestSent exC3client.headers]) :=
  ⟨(retryable_sleeps_once_nonretryable_returns exC3client exC3transport "u" 7 0).1
      { status_code := 429, body := [], as_str := some "rate limited" } 1
      rfl rfl (by decide) rfl,
   (retryable_sleeps_once_nonretryable_returns exC3client exC3transport2 "u" 7 5).2
      exC3resp2 0 rfl rfl⟩

/-- Every request the loop dispatches carries the client's configured
headers, and nothing else. -/
theorem loop_requests_carry_headers (c : AsyncClient)
    (transport : Nat → Except String Response) (url : String) :
    ∀ gas delay attempts hs,
      Event.requestSent hs ∈ (getWithRetryLoop c transport url delay attempts gas).2 →
      hs = c.headers := by
  intro gas
  induction gas with
  | zero =>
      intro delay attempts hs hmem
      rw [getWithRetryLoop] at hmem
      rcases htr : transport attempts with e | resp <;> rw [htr] at hmem <;>
        simpa [buildRequest_headers] using hmem
  | succ gas' ih =>
      intro delay attempts hs hmem
      rw [getWithRetryLoop] at hmem
      rcases htr : transport attempts with e | resp <;> rw [htr] at hmem
      · simpa [buildRequest_headers] using hmem
      · rcases hr : is_status_retryable resp.status_code
        · simpa [buildRequest_headers, hr] using hmem
        · simp [buildRequest_headers, hr] at hmem
          rcases hmem with h | h
          · exact h
          · exact ih _ _ _ h

/-- C8: every attempt of a retried call — the first and every retry —
dispatches a request that carries the client's full configured header map:
whenever the trace contains a request with header list `hs`, that list is
exactly the configured `c.headers` (each configured header once, none
lost, none duplicated). -/
theorem headers_reapplied_every_attempt
    (c : AsyncClient) (transport : Nat → Except String Response) (url : String)
    (hs : List (String × String))
    (hmem : Event.requestSent hs ∈ (get_with_retry c transport url).2) :
    hs = c.headers :=
  loop_requests_carry_headers c transport url c.max_retries BASE_BACKOFF_MILLIS 0 hs
    (by simpa [get_with_retry] using hmem)

def exC8client : AsyncClient :=
  { url := "u", max_retries := 1, headers := [("k1", "v1"), ("k2", "v2")] }

def exC8transport : Nat → Except String Response :=
  fun _ => Except.ok { status_code := 503, body := [], as_str := some "unavailable" }

theorem headers_reapplied_every_attempt_witness :
    ([("k1", "v1"), ("k2", "v2")] : List (String × String)) = exC8client.headers :=
  headers_reapplied_every_attempt exC8client exC8transport "u" [("k1", "v1"), ("k2", "v2")]
    (by decide)

/-- If a response with a non-retryable status is observed, the loop
returns it at once, whatever the remaining retry budget. -/
theorem loop_not_retryable_returns (c : AsyncClient)
    (transport : Nat → Except String Response) (url : String)
    (delay attempts gas : Nat) (r : Response)
    (htr : transport attempts = Except.ok r)
    (hr : is_status_retryable r.status_code = false) :
    getWithRetryLoop c transport url delay attempts gas =
      (Except.ok r, [Event.requestSent c.headers]) := by
  rw [getWithRetryLoop, htr]
  rcases gas with _ | gas' <;> simp [hr, buildRequest_headers]

/-- If the first response has a non-retryable status, `get_with_retry`
returns it unchanged. -/
theorem get_with_retry_first_not_retryable (c : AsyncClient)
    (transport : Nat → Except String Response) (url : String) (r : Response)
    (htr : transport 0 = Except.ok r)
    (hr : is_status_retryable r.status_code = false) :
    (get_with_retry c transport url).1 = Except.ok r := by
  rw [get_with_retry,
    loop_not_retryable_returns c transport url BASE_BACKOFF_MILLIS 0 c.max_retries r htr hr]

/-- `AsyncClient::get_response::<T>(path)`: binary (consensus) decoding of
the raw body.  The consensus `deserialize` of the `bitcoin` crate is an
external collaborator, passed as a parameter; its failure is wrapped by
the `?` operator (as `Error::BitcoinEncoding`, modelled `consensusDecode`). -/
def get_response {T : Type} (c : AsyncClient) (transport : Nat → Except String Response)
    (deserialize : List Nat → Except String T) (path : String) : Except Error T :=
  match (get_with_retry c transport (c.url ++ path)).1 with
  | Except.error e => Except.error e
  | Except.ok response =>
      if response.status_code > 299 then
        match response.as_str with
        | some resp => Except.error (Error.httpResponse (toU16 response.status_code) resp)
        | none => Except.error Error.invalidResponse
      else
        match deserialize response.body with
        | Except.ok v => Except.ok v
        | Except.error e => Except.error (Error.consensusDecode e)

/-- `AsyncClient::get_opt_response::<T>(path)`. -/
def get_opt_response {T : Type} (c : AsyncClient) (transport : Nat → Except String Response)
    (deserialize : List Nat → Except String T) (path : String) : Except Error (Option T) :=
  match get_response c transport deserialize path with
  | Except.ok res => Except.ok (some res)
  | Except.error (Error.httpResponse 404 _) => Except.ok none
  | Except.error e => Except.error e

/-- `AsyncClient::get_response_json::<T>(path)`: JSON decoding of the body
text.  `serde_json::from_str` is an external collaborator, passed as the
parameter `from_json`; its failure is mapped to `Error::Json`. -/
def get_response_json {T : Type} (c : AsyncClient) (transport : Nat → Except String Response)
    (from_json : String → Except String T) (path : String) : Except Error T :=
  match (get_with_retry c transport (c.url ++ path)).1 with
  | Except.error e => Except.error e
  | Except.ok response =>
      if response.status_code > 299 then
        match response.as_str with
        | some resp => Except.error (Error.httpResponse (toU16 response.status_code) resp)
        | none => Except.error Error.invalidResponse
      else
        match response.as_str with
        | some resp =>
            match from_json resp with
            | Except.ok v => Except.ok v
            | Except.error e => Except.error (Error.json e)
        | none => Except.error Error.invalidResponse

/-- `AsyncClient::get_opt_response_json::<T>(url)`. -/
def get_opt_response_json {T : Type} (c : AsyncClient)
    (transport : Nat → Except String Response)
    (from_json : String → Except String T) (url : String) : Except Error (Option T) :=
  match get_response_json c transport from_json url with
  | Except.ok res => Except.ok (some res)
  | Except.error (Error.httpResponse 404 _) => Except.ok none
  | Except.error e => Except.error e

/-- `AsyncClient::get_response_hex::<T>(path)`: the body text is
hex-decoded to bytes (`Vec::from_hex`, external collaborator `from_hex`,
its failure wrapped as `Error::HexToBytes`) and then consensus-decoded. -/
def get_response_hex {T : Type} (c : AsyncClient) (transport : Nat → Except String Response)
    (from_hex : String → Except String (List Nat))
    (deserialize : List Nat → Except String T) (path : String) : Except Error T :=
  match (get_with_retry c transport (c.url ++ path)).1 with
  | Except.error e => Except.error e
  | Except.ok response =>
      if response.status_code > 299 then
        match response.as_str with
        | some resp => Except.error (Error.httpResponse (toU16 response.status_code) resp)
        | none => Except.error Error.invalidResponse
      else
        match response.as_str with
        | some hex_str =>
            match from_hex hex_str with
            | Except.ok bytes =>
                match deserialize bytes with
                | Except.ok v => Except.ok v
                | Except.error e => Except.error (Error.consensusDecode e)
            | Except.error e => Except.error (Error.hexToBytes e)
        | none => Except.error Error.invalidResponse

/-- `AsyncClient::get_opt_response_hex::<T>(path)`. -/
def get_opt_response_hex {T : Type} (c : AsyncClient)
    (transport : Nat → Except String Response)
    (from_hex : String → Except String (List Nat))
    (deserialize : List Nat → Except String T) (path : String) : Except Error (Option T) :=
  match get_response_hex c transport from_hex deserialize path with
  | Except.ok res => Except.ok (some res)
  | Except.error (Error.httpResponse 404 _) => Except.ok none
  | Except.error e => Except.error e

/-- `AsyncClient::get_response_text(path)`: the body is returned verbatim
as text. -/
def get_response_text (c : AsyncClient) (transport : Nat → Except String Response)
    (path : String) : Except Error String :=
  match (get_with_retry c transport (c.url ++ path)).1 with
  | Except.error e => Except.error e
  | Except.ok response =>
      if response.status_code > 299 then
        match response.as_str with
        | some resp => Except.error (Error.httpResponse (toU16 response.status_code) resp)
        | none => Except.error Error.invalidResponse
      else
        match response.as_str with
        | some resp => Except.ok resp
        | none => Except.error Error.invalidResponse

/-- `AsyncClient::get_opt_response_text(path)`. -/
def get_opt_response_text (c : AsyncClient) (transport : Nat → Except String Response)
    (path : String) : Except Error (Option String) :=
  match get_response_text c transport path with
  | Except.ok s => Except.ok (some s)
  | Except.error (Error.httpResponse 404 _) => Except.ok none
  | Except.error e => Except.error e

/-- C5: for each of the four base decoders, when the executor's response
has a status code above 299 (a genuine HTTP status, hence below 65536,
so the `as u16` cast is the identity), the call fails with an
HTTP-response error carrying that status and the body text as the message
when the body reads as text, and with the invalid-response error when it
does not.  The 2xx decode path is never entered: the result is the same
for every decode collaborator, as the quantifiers show. -/
theorem decoders_fail_on_error_status
    (c : AsyncClient) (transport : Nat → Except String Response) (path : String)
    (response : Response)
    (hresp : (get_with_retry c transport (c.url ++ path)).1 = Except.ok response)
    (hstatus : response.status_code > 299) (hbound : response.status_code < 65536) :
    (∀ (T : Type) (deserialize : List Nat → Except String T),
       get_response c transport deserialize path =
         match response.as_str with
         | some s => Except.error (Error.httpResponse response.status_code.toNat s)
         | none => Except.error Error.invalidResponse) ∧
    (∀ (T : Type) (from_json : String → Except String T),
       get_response_json c transport from_json path =
         match response.as_str with
         | some s => Except.error (Error.httpResponse response.status_code.toNat s)
         | none => Except.error Error.invalidResponse) ∧
    (∀ (T : Type) (from_hex : String → Except String (List Nat))
       (deserialize : List Nat → Except String T),
       get_response_hex c transport from_hex deserialize path =
         match response.as_str with
         | some s => Except.error (Error.httpResponse response.status_code.toNat s)
         | none => Except.error Error.invalidResponse) ∧
    (get_response_text c transport path =
       match response.as_str with
       | some s => Except.error (Error.httpResponse response.status_code.toNat s)
       | none => Except.error Error.invalidResponse) := by
  have hU : toU16 response.status_code = response.status_code.toNat := by
    unfold toU16
    rw [Int.emod_eq_of_lt (by omega) hbound]
  refine ⟨?_, ?_, ?_, ?_⟩
  · intro T deserialize
    unfold get_response
    rw [hresp]
    cases hs : response.as_str <;> simp [hstatus, hs, hU]
  · intro T from_json
    unfold get_response_json
    rw [hresp]
    cases hs : response.as_str <;> simp [hstatus, hs, hU]
  · intro T from_hex deserialize
    unfold get_response_hex
    rw [hresp]
    cases hs : response.as_str <;> simp [hstatus, hs, hU]
  · unfold get_response_text
    rw [hresp]
    cases hs : response.as_str <;> simp [hstatus, hs, hU]

def exC5client : AsyncClient := { url := "http://e", max_retries := 0, headers := [] }

def exC5transport : Nat → Except String Response :=
  fun _ => Except.ok { status_code := 400, body := [], as_str := some "bad request" }

def exC5deser : List Nat → Except String Nat := fun _ => Except.error "unused"

theorem decoders_fail_on_error_status_witness :
    get_response exC5client exC5transport exC5deser "/x" =
      Except.error (Error.httpResponse 400 "bad request") ∧
    get_response_text exC5client exC5transport "/x" =
      Except.error (Error.httpResponse 400 "bad request") :=
  have h := decoders_fail_on_error_status exC5client exC5transport "/x"
    { status_code := 400, body := [], as_str := some "bad request" } rfl
    (by decide) (by decide)
  ⟨h.1 Nat exC5deser, h.2.2.2⟩

/-- C6: every optional decoder variant wraps its base decoder the same
way: a success `v` becomes `some v`; a failure that is an HTTP-response
error with status exactly 404 becomes the absent value `none`; every
other error — including HTTP-response errors with any other status —
propagates unchanged. -/
theorem opt_decoders_404_absent
    (c : AsyncClient) (transport : Nat → Except String Response) (path : String) :
    (∀ (T : Type) (deserialize : List Nat → Except String T),
       (∀ v, get_response c transport deserialize path = Except.ok v →
          get_opt_response c transport deserialize path = Except.ok (some v)) ∧
       (∀ m, get_response c transport deserialize path =
               Except.error (Error.httpResponse 404 m) →
          get_opt_response c transport deserialize path = Except.ok none) ∧
       (∀ e, get_response c transport deserialize path = Except.error e →
          (∀ m, e ≠ Error.httpResponse 404 m) →
          get_opt_response c transport deserialize path = Except.error e)) ∧
    (∀ (T : Type) (from_json : String → Except String T),
       (∀ v, get_response_json c transport from_json path = Except.ok v →
          get_opt_response_json c transport from_json path = Except.ok (some v)) ∧
       (∀ m, get_response_json c transport from_json path =
               Except.error (Error.httpResponse 404 m) →
          get_opt_response_json c transport from_json path = Except.ok none) ∧
       (∀ e, get_response_json c transport from_json path = Except.error e →
          (∀ m, e ≠ Error.httpResponse 404 m) →
          get_opt_response_json c transport from_json path = Except.error e)) ∧
    (∀ (T : Type) (from_hex : String → Except String (List Nat))
       (deserialize : List Nat → Except String T),
       (∀ v, get_response_hex c transport from_hex deserialize path = Except.ok v →
          get_opt_response_hex c transport from_hex deserialize path =
            Except.ok (some v)) ∧
       (∀ m, get_response_hex c transport from_hex deserialize path =
               Except.error (Error.httpResponse 404 m) →
          get_opt_response_hex c transport from_hex deserialize path = Except.ok none) ∧
       (∀ e, get_response_hex c transport from_hex deserialize path = Except.error e →
          (∀ m, e ≠ Error.httpResponse 404 m) →
          get_opt_response_hex c transport from_hex deserialize path =
            Except.error e)) ∧
    ((∀ v, get_response_text c transport path = Except.ok v →
        get_opt_response_text c transport path = Except.ok (some v)) ∧
     (∀ m, get_response_text c transport path =
             Except.error (Error.httpResponse 404 m) →
        get_opt_response_text c transport path = Except.ok none) ∧
     (∀ e, get_response_text c transport path = Except.error e →
        (∀ m, e ≠ Error.httpResponse 404 m) →
        get_opt_response_text c transport path = Except.error e)) := by
  refine ⟨fun T deserialize => ⟨?_, ?_, ?_⟩, fun T from_json => ⟨?_, ?_, ?_⟩,
    fun T from_hex deserialize => ⟨?_, ?_, ?_⟩, ⟨?_, ?_, ?_⟩⟩
  · intro v h
    unfold get_opt_response
    rw [h]
  · intro m h
    unfold get_opt_response
    rw [h]
  · intro e h hne
    unfold get_opt_response
    rw [h]
    cases e
    case httpResponse s m =>
      rcases eq_or_ne s 404 with rfl | hs
      · exact absurd rfl (hne m)
      · simp [hs]
    all_goals rfl
  · intro v h
    unfold get_opt_response_json
    rw [h]
  · intro m h
    unfold get_opt_response_json
    rw [h]
  · intro e h hne
    unfold get_opt_response_json
    rw [h]
    cases e
    case httpResponse s m =>
      rcases eq_or_ne s 404 with rfl | hs
      · exact absurd rfl (hne m)
      · simp [hs]
    all_goals rfl
  · intro v h
    unfold get_opt_response_hex
    rw [h]
  · intro m h
    unfold get_opt_response_hex
    rw [h]
  · intro e h hne
    unfold get_opt_response_hex
    rw [h]
    cases e
    case httpResponse s m =>
      rcases eq_or_ne s 404 with rfl | hs
      · exact absurd rfl (hne m)
      · simp [hs]
    all_goals rfl
  · intro v h
    unfold get_opt_response_text
    rw [h]
  · intro m h
    unfold get_opt_response_text
    rw [h]
  · intro e h hne
    unfold get_opt_response_text
    rw [h]
    cases e
    case httpResponse s m =>
      rcases eq_or_ne s 404 with rfl | hs
      · exact absurd rfl (hne m)
      · simp [hs]
    all_goals rfl

def exC6client : AsyncClient := { url := "http://e", max_retries := 0, headers := [] }

def exC6transport404 : Nat → Except String Response :=
  fun _ => Except.ok { status_code := 404, body := [], as_str := some "not found" }

def exC6transport500 : Nat → Except String Response :=
  fun _ => Except.ok { status_code := 500, body := [], as_str := some "server error" }

def exC6deser : List Nat → Except String Nat := fun _ => Except.error "unused"

theorem opt_decoders_404_absent_witness :
    get_opt_response exC6client exC6transport404 exC6deser "/x" =
      Except.ok (none : Option Nat) ∧
    get_opt_response exC6client exC6transport500 exC6deser "/x" =
      Except.error (Error.httpResponse 500 "server error") :=
  ⟨((opt_decoders_404_absent exC6client exC6transport404 "/x").1 Nat exC6deser).2.1
      "not found" rfl,
   ((opt_decoders_404_absent exC6client exC6transport500 "/x").1 Nat exC6deser).2.2
      (Error.httpResponse 500 "server error") rfl (fun m h => by simp at h)⟩

/-- Modelled from the spec: `u32::from_str` of the Rust standard library,
the external parsing collaborator of `get_height`: an optional leading
plus sign followed by one or more ASCII digits, the value fitting in 32
bits; anything else is a parse error (`none`). -/
def u32_from_str (s : String) : Option Nat :=
  let chars :=
    match s.toList with
    | '+' :: rest => rest
    | cs => cs
  if chars = [] then none
  else if chars.all Char.isDigit then
    let n := chars.foldl (fun acc c => acc * 10 + (c.toNat - 48)) 0
    if n < 4294967296 then some n else none
  else none

/-- `AsyncClient::get_height()`: text decode of `/blocks/tip/height`,
parsed as a `u32`; a parse failure is mapped to `Error::Parsing`. -/
def get_height (c : AsyncClient) (transport : Nat → Except String Response) :
    Except Error Nat :=
  match get_response_text c transport "/blocks/tip/height" with
  | Except.ok height =>
      match u32_from_str height with
      | some n => Except.ok n
      | none => Except.error Error.parsing
  | Except.error e => Except.error e

/-- `AsyncClient::get_blocks(height)`: JSON decode of `/blocks` or
`/blocks/{height}` (the element type `B` stands for `BlockSummary`, the
`serde_json` collaborator is `from_json`); a successfully decoded empty
list is rejected with `Error::InvalidResponse`. -/
def get_blocks {B : Type} (c : AsyncClient) (transport : Nat → Except String Response)
    (from_json : String → Except String (List B)) (height : Option Nat) :
    Except Error (List B) :=
  let path :=
    match height with
    | some hh => "/blocks/" ++ toString hh
    | none => "/blocks"
  match get_response_json c transport from_json path with
  | Except.error e => Except.error e
  | Except.ok blocks =>
      if blocks.isEmpty then Except.error Error.invalidResponse
      else Except.ok blocks

/-- `AsyncClient::get_tx(txid)`: optional binary decode of
`/tx/{txid}/raw` (the `Txid` is modelled by its display string; `T`
stands for `Transaction` with its consensus `deserialize`). -/
def get_tx {T : Type} (c : AsyncClient) (transport : Nat → Except String Response)
    (deserialize : List Nat → Except String T) (txid : String) :
    Except Error (Option T) :=
  get_opt_response c transport deserialize ("/tx/" ++ txid ++ "/raw")

/-- `AsyncClient::get_tx_no_opt(txid)`: like `get_tx` but an absent
transaction becomes `Error::TransactionNotFound(txid)`. -/
def get_tx_no_opt {T : Type} (c : AsyncClient) (transport : Nat → Except String Response)
    (deserialize : List Nat → Except String T) (txid : String) : Except Error T :=
  match get_tx c transport deserialize txid with
  | Except.ok (some tx) => Except.ok tx
  | Except.ok none => Except.error (Error.transactionNotFound txid)
  | Except.error e => Except.error e

/-- C9: on a successful text response whose body is the decimal numeral
`"123456"`, `get_height` returns the integer `123456`; on a successful
text response whose body is not a valid numeral it fails with
`Error::Parsing` — never a default value. -/
theorem get_height_parses_decimal (c : AsyncClient) :
    (∀ (transport : Nat → Except String Response) (body : List Nat),
       transport 0 =
         Except.ok { status_code := 200, body := body, as_str := some "123456" } →
       get_height c transport = Except.ok 123456) ∧
    (∀ (transport : Nat → Except String Response) (body : List Nat) (s : String),
       transport 0 = Except.ok { status_code := 200, body := body, as_str := some s } →
       u32_from_str s = none →
       get_height c transport = Except.error Error.parsing) := by
  constructor
  · intro transport body htr
    have htext : get_response_text c transport "/blocks/tip/height" =
        Except.ok "123456" := by
      unfold get_response_text
      rw [get_with_retry_first_not_retryable c transport (c.url ++ "/blocks/tip/height")
        _ htr rfl]
      simp
    unfold get_height
    rw [htext]
    rfl
  · intro transport body s htr hparse
    have htext : get_response_text c transport "/blocks/tip/height" = Except.ok s := by
      unfold get_response_text
      rw [get_with_retry_first_not_retryable c transport (c.url ++ "/blocks/tip/height")
        _ htr rfl]
      simp
    unfold get_height
    rw [htext]
    simp [hparse]

def exC9client : AsyncClient := { url := "", max_retries := 2, headers := [] }

def exC9transportA : Nat → Except String Response :=
  fun _ => Except.ok { status_code := 200, body := [], as_str := some "123456" }

def exC9transportB : Nat → Except String Response :=
  fun _ => Except.ok { status_code := 200, body := [], as_str := some "not a number" }

theorem get_height_parses_decimal_witness :
    get_height exC9client exC9transportA = Except.ok 123456 ∧
    get_height exC9client exC9transportB = Except.error Error.parsing :=
  ⟨(get_height_parses_decimal exC9client).1 exC9transportA [] rfl,
   (get_height_parses_decimal exC9client).2 exC9transportB [] "not a number" rfl
     (by decide)⟩

/-- C7 (amended): when the JSON decode of the block-summaries endpoint
succeeds with an empty list, `get_blocks` fails — with
`Error::InvalidResponse`, the variant the code reuses here (no distinct
empty-result error is constructed) — and `get_blocks` never returns an
empty list as a success. -/
theorem get_blocks_empty_fails_invalid {B : Type}
    (c : AsyncClient) (transport : Nat → Except String Response)
    (from_json : String → Except String (List B)) (height : Option Nat) :
    (get_response_json c transport from_json
        (match height with
         | some hh => "/blocks/" ++ toString hh
         | none => "/blocks") = Except.ok ([] : List B) →
       get_blocks c transport from_json height = Except.error Error.invalidResponse) ∧
    (∀ bs, get_blocks c transport from_json height = Except.ok bs → bs ≠ []) := by
  constructor
  · intro h
    simp only [get_blocks]
    rw [h]
    simp
  · intro bs h hbs
    subst hbs
    simp only [get_blocks] at h
    revert h
    rcases hres : get_response_json c transport from_json
        (match height with
         | some hh => "/blocks/" ++ toString hh
         | none => "/blocks") with e | blocks
    · intro h
      simp at h
    · intro h
      rcases hb : blocks.isEmpty
      · simp [hb] at h
        subst h
        simp at hb
      · simp [hb] at h

def exC7client : AsyncClient := { url := "http://e", max_retries := 0, headers := [] }

def exC7transport : Nat → Except String Response :=
  fun _ => Except.ok { status_code := 200, body := [], as_str := some "[]" }

def exC7parse : String → Except String (List Unit) :=
  fun s => if s = "[]" then Except.ok [] else Except.error "expected a JSON array"

/-- C7 (counterexample): a backend response that successfully decodes to
an empty list makes `get_blocks` fail with `Error.invalidResponse`, which
is not the spec's distinct `EmptyResultError`. -/
theorem get_blocks_empty_counterexample :
    get_response_json exC7client exC7transport exC7parse "/blocks" =
      Except.ok ([] : List Unit) ∧
    get_blocks exC7client exC7transport exC7parse none =
      Except.error Error.invalidResponse ∧
    Error.invalidResponse ≠ Error.emptyResult :=
  ⟨rfl, rfl, by decide⟩

theorem get_blocks_empty_fails_invalid_witness :
    get_blocks exC7client exC7transport exC7parse none =
      Except.error Error.invalidResponse :=
  (get_blocks_empty_fails_invalid exC7client exC7transport exC7parse none).1 rfl

/-- C10: `get_tx_no_opt` never returns an absent value: when `get_tx`
returns a present transaction it returns that transaction; when `get_tx`
returns the absent value (backend 404) it fails with
`Error::TransactionNotFound` carrying the same txid; any error of
`get_tx` propagates unchanged. -/
theorem get_tx_no_opt_never_absent {T : Type}
    (c : AsyncClient) (transport : Nat → Except String Response)
    (deserialize : List Nat → Except String T) (txid : String) :
    (∀ tx, get_tx c transport deserialize txid = Except.ok (some tx) →
       get_tx_no_opt c transport deserialize txid = Except.ok tx) ∧
    (get_tx c transport deserialize txid = Except.ok none →
       get_tx_no_opt c transport deserialize txid =
         Except.error (Error.transactionNotFound txid)) ∧
    (∀ e, get_tx c transport deserialize txid = Except.error e →
       get_tx_no_opt c transport deserialize txid = Except.error e) := by
  refine ⟨?_, ?_, ?_⟩
  · intro tx h
    unfold get_tx_no_opt
    rw [h]
  · intro h
    unfold get_tx_no_opt
    rw [h]
  · intro e h
    unfold get_tx_no_opt
    rw [h]

def exC10client : AsyncClient := { url := "http://e", max_retries := 0, headers := [] }

def exC10transport : Nat → Except String Response :=
  fun _ => Except.ok { status_code := 404, body := [], as_str := some "not found" }

def exC10deser : List Nat → Except String Nat := fun _ => Except.error "unused"

theorem get_tx_no_opt_never_absent_witness :
    get_tx_no_opt exC10client exC10transport exC10deser "ab12" =
      Except.error (Error.transactionNotFound "ab12") :=
  (get_tx_no_opt_never_absent exC10client exC10transport exC10deser "ab12").2.1 rfl

end Esplora
